import Mathlib

/-!
Verification development for a small blog-post HTTP service (Go, `main.go`).
The data model, validator, create/get/list handlers and the upload path are
shallowly embedded as executable Lean definitions; the theorems below settle
the specification claims about them.
-/

namespace Blogo

/-! ### Strings: Go `strings.TrimSpace`, `strings.Split`, `strings.Contains` -/

/-- Whitespace predicate modelling Go `unicode.IsSpace` on the Latin-1 range
(the range relevant to the form fields the service handles). -/
def isGoSpace (c : Char) : Bool :=
  c == ' ' || c == '\t' || c == '\n' || c == '\r' || c == '\u000B' || c == '\u000C' ||
    c == '\u0085' || c == '\u00A0'

/-- Drop leading whitespace characters. -/
def trimLeftChars : List Char → List Char
  | [] => []
  | c :: cs => if isGoSpace c then trimLeftChars cs else c :: cs

/-- Drop trailing whitespace characters. -/
def trimRightChars (l : List Char) : List Char :=
  (trimLeftChars l.reverse).reverse

/-- Drop whitespace at both ends. -/
def trimChars (l : List Char) : List Char :=
  trimRightChars (trimLeftChars l)

/-- Model of Go `strings.TrimSpace`. -/
def goTrim (s : String) : String := String.mk (trimChars s.data)

/-- Model of Go `strings.Contains` (substring check). -/
def goContains (s sub : String) : Bool := decide (sub.data <:+: s.data)

/-! ### Data model

`BlogPost` mirrors the Go struct (sans `ID`/`CreatedAt`/`UpdatedAt`, which the
store assigns and no claim mentions).  `BlogForm` is the submitted multipart
form: one value per single-valued field, and the full list of `tags` fields
(`r.Form["tags"]`). -/

structure BlogPost where
  Title : String
  MetaDescription : String
  FocusKeyword : String
  UrlKeyword : String
  Image : String
  Tags : List String
  Topic : String
  Service : String
  Industry : String
  Priority : String
  Description : String
deriving Repr, DecidableEq

structure BlogForm where
  title : String
  meta_description : String
  focus_keyword : String
  url_keyword : String
  tags : List String
  topic : String
  service : String
  industry : String
  priority : String
  description : String
deriving Repr, DecidableEq

/-! ### Validator (`validateBlogPost` in `main.go`) -/

/-- One character of the class `[a-zA-Z0-9-]`. -/
def isUrlKeywordChar (c : Char) : Bool :=
  ('a' ≤ c && c ≤ 'z') || ('A' ≤ c && c ≤ 'Z') || ('0' ≤ c && c ≤ '9') || c == '-'

/-- Whole-string match of the Go regexp `^[a-zA-Z0-9-]+$`. -/
def matchesUrlKeywordRe (s : String) : Bool :=
  !s.data.isEmpty && s.data.all isUrlKeywordChar

/-- The `validPriorities` map in `validateBlogPost`. -/
def validPriority (s : String) : Bool :=
  s == "maximum" || s == "high" || s == "normal"

/-- Split every submitted `tags` field on commas and flatten, in field order
(the two nested loops of `validateBlogPost`). -/
def splitTags (fields : List String) : List String :=
  fields.flatMap fun f => (f.data.splitOn ',').map String.mk

/-- The inner tag loop of `validateBlogPost`: trim each piece, skip empties,
reject the first trimmed tag longer than 50 characters, keep the rest. -/
def processTagPieces : List String → Except String (List String)
  | [] => .ok []
  | piece :: rest =>
    let tag := goTrim piece
    if tag == "" then processTagPieces rest
    else if decide (tag.length > 50) then
      .error ("tag length cannot exceed 50 characters: " ++ tag)
    else
      match processTagPieces rest with
      | .error e => .error e
      | .ok tags => .ok (tag :: tags)

/-- Model of `validateBlogPost`: the exact sequence of checks of the Go code,
with the store passed explicitly (`db` row-existence query becomes a scan of
the stored posts). -/
def validateBlogPost (form : BlogForm) (store : List BlogPost) : Except String BlogPost :=
  let title := goTrim form.title
  if title == "" then .error "title is required"
  else
    let description := goTrim form.description
    if description == "" then .error "description is required"
    else
      let urlKeyword := goTrim form.url_keyword
      if urlKeyword == "" then .error "url_keyword is required"
      else if !matchesUrlKeywordRe urlKeyword then
        .error "url_keyword must contain only letters, numbers, and hyphens"
      else
        let priorityRaw := goTrim form.priority
        if priorityRaw != "" && !validPriority priorityRaw then
          .error "invalid priority value: must be maximum, high, or normal"
        else
          match processTagPieces (splitTags form.tags) with
          | .error e => .error e
          | .ok tags =>
            let metaDescription := goTrim form.meta_description
            if decide (metaDescription.length > 160) then
              .error "meta description cannot exceed 160 characters"
            else if decide (title.length > 100) then
              .error "title cannot exceed 100 characters"
            else if store.any (fun p => p.UrlKeyword == urlKeyword) then
              .error "url_keyword already exists"
            else
              .ok { Title := title
                    MetaDescription := metaDescription
                    FocusKeyword := goTrim form.focus_keyword
                    UrlKeyword := urlKeyword
                    Image := ""
                    Tags := tags
                    Topic := goTrim form.topic
                    Service := goTrim form.service
                    Industry := goTrim form.industry
                    Priority := if priorityRaw == "" then "normal" else priorityRaw
                    Description := description }

/-! ### Spec-side description of the validator (for the refinement claim C3) -/

/-- The first over-long trimmed tag piece, if any (drives the spec-side tag rule). -/
def firstBadTag (fields : List String) : Option String :=
  ((splitTags fields).map goTrim).find? fun t => !(t == "") && decide (t.length > 50)

/-- Spec-side description: the nine validation rules in the order the spec
states, each as (violated?, rejection reason). -/
def specRuleViolations (form : BlogForm) (store : List BlogPost) : List (Bool × String) :=
  [ (goTrim form.title == "", "title is required"),
    (goTrim form.description == "", "description is required"),
    (goTrim form.url_keyword == "", "url_keyword is required"),
    (!matchesUrlKeywordRe (goTrim form.url_keyword),
      "url_keyword must contain only letters, numbers, and hyphens"),
    (goTrim form.priority != "" && !validPriority (goTrim form.priority),
      "invalid priority value: must be maximum, high, or normal"),
    ((firstBadTag form.tags).isSome,
      "tag length cannot exceed 50 characters: " ++ (firstBadTag form.tags).getD ""),
    (decide ((goTrim form.meta_description).length > 160),
      "meta description cannot exceed 160 characters"),
    (decide ((goTrim form.title).length > 100), "title cannot exceed 100 characters"),
    (store.any fun p => p.UrlKeyword == goTrim form.url_keyword, "url_keyword already exists") ]

/-- The reason of the first violated rule, scanning in order. -/
def firstViolation : List (Bool × String) → Option String
  | [] => none
  | (b, msg) :: rest => if b then some msg else firstViolation rest

/-- Spec-side description: the first violated rule's rejection reason. -/
def specFirstViolation (form : BlogForm) (store : List BlogPost) : Option String :=
  firstViolation (specRuleViolations form store)

/-- The fully populated post the validator returns when no rule is violated. -/
def specPost (form : BlogForm) : BlogPost :=
  { Title := goTrim form.title
    MetaDescription := goTrim form.meta_description
    FocusKeyword := goTrim form.focus_keyword
    UrlKeyword := goTrim form.url_keyword
    Image := ""
    Tags := ((splitTags form.tags).map goTrim).filter fun t => !(t == "")
    Topic := goTrim form.topic
    Service := goTrim form.service
    Industry := goTrim form.industry
    Priority := if goTrim form.priority == "" then "normal" else goTrim form.priority
    Description := goTrim form.description }

/-! ### Store operations and request handlers -/

/-- Point lookup of `blogHandler` (`SELECT ... WHERE url_keyword = ?`): the
first stored post with the given slug, if any. -/
def getByUrlKeyword (store : List BlogPost) (key : String) : Option BlogPost :=
  store.find? fun p => p.UrlKeyword == key

/-- Outcome of the create endpoint: HTTP status, response/error message, and
the table contents afterwards. -/
structure CreateResponse where
  status : Nat
  body : String
  store : List BlogPost
deriving Repr, DecidableEq

/-- Model of `createBlogHandler` on a request without an attached file:
validate, then insert the validated post (400 and no insert on a validation
error, 201 and an appended row otherwise). -/
def createBlogHandler (form : BlogForm) (store : List BlogPost) : CreateResponse :=
  match validateBlogPost form store with
  | .error e => ⟨400, e, store⟩
  | .ok blog => ⟨201, "Blog post created successfully", store ++ [blog]⟩

/-- The `CASE priority` rank of the list query: maximum 1, high 2, normal 3,
anything else 4. -/
def priorityRank (p : BlogPost) : Nat :=
  if p.Priority == "maximum" then 1
  else if p.Priority == "high" then 2
  else if p.Priority == "normal" then 3
  else 4

/-- Comparison by priority rank; the `ORDER BY` key of `listBlogsHandler`. -/
def priorityLe (a b : BlogPost) : Prop := priorityRank a ≤ priorityRank b

instance : DecidableRel priorityLe := fun _ _ => Nat.decLe _ _

instance : IsTotal BlogPost priorityLe := ⟨fun _ _ => Nat.le_total _ _⟩

instance : IsTrans BlogPost priorityLe := ⟨fun _ _ _ => Nat.le_trans⟩

/-- The paginated response of `listBlogsHandler`; the numeric fields are Go
`int` (int64) values. -/
structure PaginatedResponse where
  Posts : List BlogPost
  TotalPosts : Int
  Page : Int
  PageSize : Int
  TotalPages : Int
deriving Repr, DecidableEq

/-- Two to the sixty-third power, the int64 sign boundary. -/
def twoPow63 : Int := 9223372036854775808

/-- Wrap an unbounded integer into the two's-complement int64 range
`[-2^63, 2^63)`, as Go's fixed-width `int` arithmetic does on overflow. -/
def wrap64 (x : Int) : Int := (x + twoPow63) % (2 * twoPow63) - twoPow63

/-- Model of `listBlogsHandler`: the raw `page`/`pageSize` values parsed by
`strconv.Atoi` (the Go code maps a missing or malformed parameter to 0, and
any parsed value lies in the int64 range), floored to 1 resp. defaulted to
10, then `LIMIT pageSize OFFSET (page-1)*pageSize` over the rows, ordered by
priority rank when requested.  The offset product and the totalPages
numerator are computed in wrapping int64 arithmetic exactly as in Go
(`wrap64`), totalPages with Go's truncated division (`Int.tdiv`); SQLite
reads a negative OFFSET as 0, which is `Int.toNat`. -/
def listBlogsHandler (page pageSize : Int) (sortByPriority : Bool)
    (store : List BlogPost) : PaginatedResponse :=
  let page : Int := if page < 1 then 1 else page
  let pageSize : Int := if pageSize < 1 then 10 else pageSize
  let totalPosts : Int := store.length
  let ordered := if sortByPriority then store.insertionSort priorityLe else store
  let offset := wrap64 ((page - 1) * pageSize)
  let posts := (ordered.drop offset.toNat).take pageSize.toNat
  let totalPages := Int.tdiv (wrap64 (totalPosts + pageSize - 1)) pageSize
  ⟨posts, totalPosts, page, pageSize, totalPages⟩

/-! ### Upload handler (`validateAndSaveFile` in `main.go`)

The filename arithmetic of Go `path/filepath` (`Clean`, `Join`) is embedded
lexically: elements are processed against a stack, `..` popping the previous
element when one exists. -/

/-- The `allowedImageTypes` constant. -/
def allowedImageTypes : String := "image/jpeg,image/png,image/gif"

/-- `maxFileSize = 10 << 20`. -/
def maxFileSize : Nat := 10 <<< 20

/-- Element loop of Go `filepath.Clean`: skip empty and `.` elements, let `..`
cancel a preceding real element, keep leading `..` on relative paths, drop
`..` at the root of rooted paths. -/
def cleanLoop (rooted : Bool) (acc : List String) : List String → List String
  | [] => acc.reverse
  | e :: rest =>
    if e == "" || e == "." then cleanLoop rooted acc rest
    else if e == ".." then
      match acc with
      | top :: accTail =>
        if top == ".." then cleanLoop rooted (".." :: acc) rest
        else cleanLoop rooted accTail rest
      | [] => if rooted then cleanLoop rooted [] rest else cleanLoop rooted [".."] rest
    else cleanLoop rooted (e :: acc) rest

/-- Model of Go `filepath.Clean` (Unix separator). -/
def goClean (s : String) : String :=
  if s == "" then "."
  else
    let rooted := s.data.head? == some '/'
    let elems := (s.data.splitOn '/').map String.mk
    let body := String.intercalate "/" (cleanLoop rooted [] elems)
    if rooted then
      if body == "" then "/" else "/" ++ body
    else
      if body == "" then "." else body

/-- Model of Go `filepath.Join` for two elements. -/
def goJoin (a b : String) : String :=
  if a == "" then (if b == "" then "" else goClean b)
  else if b == "" then goClean a
  else goClean (a ++ "/" ++ b)

/-- Model of `validateAndSaveFile`: the size check, the declared-content-type
check (`strings.Contains` against `allowedImageTypes`), then the stored path
`filepath.Join("uploads", filepath.Clean(filename))`; the byte copy itself is
outside the model. -/
def validateAndSaveFile (size : Nat) (contentType filename : String) :
    Except String String :=
  if decide (size > maxFileSize) then .error "file size exceeds maximum allowed size"
  else if !goContains allowedImageTypes contentType then
    .error ("unsupported file type: " ++ contentType)
  else .ok (goJoin "uploads" (goClean filename))

/-- Whether an upload attempt was accepted. -/
def uploadAccepted (r : Except String String) : Bool :=
  match r with
  | .ok _ => true
  | .error _ => false

/-- Whether a stored path lies inside the fixed `uploads` directory. -/
def insideUploads (p : String) : Bool :=
  p == "uploads" || "uploads/".data.isPrefixOf p.data

/-! ### Concrete sample requests and posts used by the witnesses -/

/-- A valid submission with two `tags` fields and no priority. -/
def sampleForm : BlogForm :=
  { title := "Hello", meta_description := "", focus_keyword := "",
    url_keyword := "hello-world", tags := ["a, b", "c"], topic := "",
    service := "", industry := "", priority := "", description := "World" }

/-- The post `sampleForm` validates to. -/
def samplePost : BlogPost :=
  { Title := "Hello", MetaDescription := "", FocusKeyword := "",
    UrlKeyword := "hello-world", Image := "", Tags := ["a", "b", "c"],
    Topic := "", Service := "", Industry := "", Priority := "normal",
    Description := "World" }

/-- A valid submission with whitespace padding around every field. -/
def paddedForm : BlogForm :=
  { title := "  Hello  ", meta_description := " m ", focus_keyword := " f ",
    url_keyword := " hello-world ", tags := [" a , b ", " c "], topic := " top ",
    service := " s ", industry := " i ", priority := " high ",
    description := " World " }

/-- The post `paddedForm` validates to. -/
def paddedPost : BlogPost :=
  { Title := "Hello", MetaDescription := "m", FocusKeyword := "f",
    UrlKeyword := "hello-world", Image := "", Tags := ["a", "b", "c"],
    Topic := "top", Service := "s", Industry := "i", Priority := "high",
    Description := "World" }

/-- A post already in the table, under the slug `dup`. -/
def storedPost : BlogPost :=
  { Title := "t0", MetaDescription := "", FocusKeyword := "",
    UrlKeyword := "dup", Image := "", Tags := [], Topic := "", Service := "",
    Industry := "", Priority := "normal", Description := "d0" }

/-- An otherwise-valid submission reusing the stored slug `dup`. -/
def dupForm : BlogForm :=
  { title := "t", meta_description := "", focus_keyword := "",
    url_keyword := "dup", tags := [], topic := "", service := "",
    industry := "", priority := "", description := "d" }

/-- The duplicate-slug submission with its title left empty. -/
def dupFormNoTitle : BlogForm := { dupForm with title := "" }

/-- A submission whose raw url_keyword ` a` contains a space. -/
def spacedForm : BlogForm :=
  { title := "t", meta_description := "", focus_keyword := "",
    url_keyword := " a", tags := [], topic := "", service := "",
    industry := "", priority := "", description := "d" }

/-- The post `spacedForm` validates to: the slug is stored trimmed. -/
def spacedPost : BlogPost :=
  { Title := "t", MetaDescription := "", FocusKeyword := "",
    UrlKeyword := "a", Image := "", Tags := [], Topic := "", Service := "",
    Industry := "", Priority := "normal", Description := "d" }

/-! ### Helper lemmas: trimming -/

theorem trimLeftChars_idem (l : List Char) :
    trimLeftChars (trimLeftChars l) = trimLeftChars l := by
  induction l with
  | nil => rfl
  | cons c cs ih =>
    by_cases h : isGoSpace c = true
    · simp [trimLeftChars, h, ih]
    · simp [trimLeftChars, h]

theorem trimLeftChars_length_le (l : List Char) :
    (trimLeftChars l).length ≤ l.length := by
  induction l with
  | nil => exact Nat.le_refl 0
  | cons c cs ih =>
    by_cases h : isGoSpace c = true
    · simp only [trimLeftChars, h, if_true, List.length_cons]
      omega
    · simp [trimLeftChars, h]

theorem trimLeftChars_cons_fix (c : Char) (cs : List Char)
    (h : trimLeftChars (c :: cs) = c :: cs) : isGoSpace c = false := by
  cases hc : isGoSpace c with
  | false => rfl
  | true =>
    simp only [trimLeftChars, hc, if_true] at h
    have hlen := trimLeftChars_length_le cs
    rw [h] at hlen
    simp at hlen

theorem trimLeftChars_suffix (l : List Char) : trimLeftChars l <:+ l := by
  induction l with
  | nil => exact List.suffix_refl []
  | cons c cs ih =>
    by_cases h : isGoSpace c = true
    · simp only [trimLeftChars, h, if_true]
      exact ih.trans (List.suffix_cons c cs)
    · simp [trimLeftChars, h]

theorem trimRightChars_prefix (l : List Char) : trimRightChars l <+: l := by
  have h := (List.reverse_prefix).mpr (trimLeftChars_suffix l.reverse)
  rw [List.reverse_reverse] at h
  exact h

theorem trimRightChars_idem (l : List Char) :
    trimRightChars (trimRightChars l) = trimRightChars l := by
  unfold trimRightChars
  rw [List.reverse_reverse, trimLeftChars_idem]

theorem trimChars_idem (l : List Char) : trimChars (trimChars l) = trimChars l := by
  unfold trimChars
  have hfix : trimLeftChars (trimRightChars (trimLeftChars l)) =
      trimRightChars (trimLeftChars l) := by
    cases hX : trimRightChars (trimLeftChars l) with
    | nil => rfl
    | cons c xs =>
      have hpre : trimRightChars (trimLeftChars l) <+: trimLeftChars l :=
        trimRightChars_prefix (trimLeftChars l)
      rw [hX] at hpre
      obtain ⟨t, ht⟩ := hpre
      have hl1fix : trimLeftChars (trimLeftChars l) = trimLeftChars l :=
        trimLeftChars_idem l
      have hcons : trimLeftChars l = c :: (xs ++ t) := by
        rw [← ht]; simp
      rw [hcons] at hl1fix
      have hc := trimLeftChars_cons_fix c (xs ++ t) hl1fix
      simp [trimLeftChars, hc]
  rw [hfix, trimRightChars_idem]

theorem goTrim_idem (s : String) : goTrim (goTrim s) = goTrim s := by
  show String.mk (trimChars (trimChars s.data)) = String.mk (trimChars s.data)
  rw [trimChars_idem]

/-! ### Helper lemmas: tag processing -/

theorem processTagPieces_eq (pieces : List String) :
    processTagPieces pieces =
      match (pieces.map goTrim).find? (fun t => !(t == "") && decide (t.length > 50)) with
      | some t => Except.error ("tag length cannot exceed 50 characters: " ++ t)
      | none => Except.ok ((pieces.map goTrim).filter fun t => !(t == "")) := by
  induction pieces with
  | nil => rfl
  | cons piece rest ih =>
    by_cases h1 : (goTrim piece == "") = true
    · simp [processTagPieces, h1, List.find?_cons, List.filter_cons, ih]
    · have h1f : (goTrim piece == "") = false := by
        cases hb : (goTrim piece == "") <;> simp_all
      by_cases h2 : decide ((goTrim piece).length > 50) = true
      · simp only [processTagPieces, h1f, Bool.false_eq_true, if_false, h2, if_true,
          List.map_cons, List.find?_cons, Bool.not_false, Bool.true_and]
      · have h2f : decide ((goTrim piece).length > 50) = false := by
          cases hb : decide ((goTrim piece).length > 50) <;> simp_all
        simp only [processTagPieces, h1f, Bool.false_eq_true, if_false, h2f, ih,
          List.map_cons, List.find?_cons, Bool.not_false, Bool.true_and,
          List.filter_cons]
        cases hf : (rest.map goTrim).find? (fun t => !(t == "") && decide (t.length > 50)) <;>
          simp [h1f]

/-! ### The validator as the first-violated-rule scan -/

theorem validateBlogPost_eq (form : BlogForm) (store : List BlogPost) :
    validateBlogPost form store =
      match specFirstViolation form store with
      | some msg => Except.error msg
      | none => Except.ok (specPost form) := by
  unfold validateBlogPost specFirstViolation specRuleViolations specPost firstBadTag
  rw [processTagPieces_eq]
  simp only [firstViolation]
  by_cases h1 : (goTrim form.title == "") = true
  · simp [h1]
  by_cases h2 : (goTrim form.description == "") = true
  · simp [h1, h2]
  by_cases h3 : (goTrim form.url_keyword == "") = true
  · simp [h1, h2, h3]
  by_cases h4 : (!matchesUrlKeywordRe (goTrim form.url_keyword)) = true
  · simp [h1, h2, h3, h4]
  by_cases h5 : (goTrim form.priority != "" && !validPriority (goTrim form.priority)) = true
  · simp [h1, h2, h3, h4, h5]
  cases hfind : ((splitTags form.tags).map goTrim).find?
      (fun t => !(t == "") && decide (t.length > 50)) with
  | some t => simp [h1, h2, h3, h4, h5, hfind]
  | none =>
    by_cases h7 : decide ((goTrim form.meta_description).length > 160) = true
    · simp [h1, h2, h3, h4, h5, hfind, h7]
    by_cases h8 : decide ((goTrim form.title).length > 100) = true
    · simp [h1, h2, h3, h4, h5, hfind, h7, h8]
    by_cases h9 : (store.any fun p => p.UrlKeyword == goTrim form.url_keyword) = true
    · simp [h1, h2, h3, h4, h5, hfind, h7, h8, h9]
    · simp [h1, h2, h3, h4, h5, hfind, h7, h8, h9]

theorem firstViolation_none (rules : List (Bool × String)) :
    firstViolation rules = none ↔ ∀ r ∈ rules, r.1 = false := by
  induction rules with
  | nil => simp [firstViolation]
  | cons r rest ih =>
    obtain ⟨b, m⟩ := r
    cases b <;> simp [firstViolation, ih]

/-- Everything a successful validation guarantees: the returned post is the
spec-side post, and every rule of the spec list holds. -/
theorem validateBlogPost_ok_fields (form : BlogForm) (store : List BlogPost)
    (blog : BlogPost) (h : validateBlogPost form store = Except.ok blog) :
    blog = specPost form ∧
    goTrim form.title ≠ "" ∧
    goTrim form.description ≠ "" ∧
    matchesUrlKeywordRe (goTrim form.url_keyword) = true ∧
    (goTrim form.priority = "" ∨ validPriority (goTrim form.priority) = true) ∧
    firstBadTag form.tags = none ∧
    (goTrim form.meta_description).length ≤ 160 ∧
    (goTrim form.title).length ≤ 100 ∧
    (∀ p ∈ store, p.UrlKeyword ≠ goTrim form.url_keyword) := by
  rw [validateBlogPost_eq] at h
  cases hv : specFirstViolation form store with
  | some msg => rw [hv] at h; exact absurd h (by simp)
  | none =>
    rw [hv] at h
    have hb : blog = specPost form := by
      have := h
      simp only [Except.ok.injEq] at this
      exact this.symm
    have hv2 : firstViolation (specRuleViolations form store) = none := hv
    have hall := (firstViolation_none _).mp hv2
    have h1 := hall (goTrim form.title == "", "title is required") (by simp [specRuleViolations])
    have h2 := hall (goTrim form.description == "", "description is required")
      (by simp [specRuleViolations])
    have h4 := hall (!matchesUrlKeywordRe (goTrim form.url_keyword),
      "url_keyword must contain only letters, numbers, and hyphens")
      (by simp [specRuleViolations])
    have h5 := hall (goTrim form.priority != "" && !validPriority (goTrim form.priority),
      "invalid priority value: must be maximum, high, or normal")
      (by simp [specRuleViolations])
    have h6 := hall ((firstBadTag form.tags).isSome,
      "tag length cannot exceed 50 characters: " ++ (firstBadTag form.tags).getD "")
      (by simp [specRuleViolations])
    have h7 := hall (decide ((goTrim form.meta_description).length > 160),
      "meta description cannot exceed 160 characters") (by simp [specRuleViolations])
    have h8 := hall (decide ((goTrim form.title).length > 100),
      "title cannot exceed 100 characters") (by simp [specRuleViolations])
    have h9 := hall ((store.any fun p => p.UrlKeyword == goTrim form.url_keyword),
      "url_keyword already exists") (by simp [specRuleViolations])
    simp only at h1 h2 h4 h5 h6 h7 h8 h9
    refine ⟨hb, by simpa using h1, by simpa using h2, by simpa using h4, ?_, ?_, ?_, ?_, ?_⟩
    · rcases Bool.and_eq_false_iff.mp h5 with hp | hp
      · left
        simpa using hp
      · right
        simpa using hp
    · simpa using h6
    · have := of_decide_eq_false h7
      omega
    · have := of_decide_eq_false h8
      omega
    · intro p hp
      have := List.any_eq_false.mp h9 p hp
      simpa using this

/-- A url_keyword matching the pattern is non-empty. -/
theorem matches_ne_empty (s : String) (h : matchesUrlKeywordRe s = true) :
    (s == "") = false := by
  unfold matchesUrlKeywordRe at h
  cases hs : (s == "") with
  | false => rfl
  | true =>
    have hs2 : s = "" := by simpa using hs
    subst hs2
    simp at h

/-- Facts about the tags of the spec-side post when no tag is over-long. -/
theorem specPost_tags_facts (form : BlogForm) (hbad : firstBadTag form.tags = none) :
    ∀ t ∈ (specPost form).Tags, t ≠ "" ∧ goTrim t = t ∧ t.length ≤ 50 := by
  intro t ht
  simp only [specPost] at ht
  rw [List.mem_filter] at ht
  obtain ⟨hmem, hne⟩ := ht
  obtain ⟨x, hx, hxe⟩ := List.mem_map.mp hmem
  have hne2 : t ≠ "" := by simpa using hne
  refine ⟨hne2, by rw [← hxe]; exact goTrim_idem x, ?_⟩
  unfold firstBadTag at hbad
  rw [List.find?_eq_none] at hbad
  have hnp := hbad t hmem
  simp only [hne, Bool.true_and, Bool.not_eq_true] at hnp
  have hlen := of_decide_eq_false hnp
  omega

/-- `find?` skips a first block in which nothing matches. -/
theorem find?_append_none {α : Type} (p : α → Bool) (l1 l2 : List α)
    (h : l1.find? p = none) : (l1 ++ l2).find? p = l2.find? p := by
  induction l1 with
  | nil => rfl
  | cons a l ih =>
    cases hpa : p a with
    | true => simp [List.find?_cons, hpa] at h
    | false =>
      simp only [List.find?_cons, hpa] at h
      simp only [List.cons_append, List.find?_cons, hpa]
      exact ih h

/-- The Go pagination formula `(t + ps - 1) / ps` is the ceiling of `t / ps`. -/
theorem ceil_div_eq (t ps : Nat) (hps : 1 ≤ ps) :
    ((t + ps - 1) / ps : Nat) = ⌈(t : ℚ) / (ps : ℚ)⌉₊ := by
  rcases Nat.eq_zero_or_pos t with ht | ht
  · subst ht
    have hz : (0 + ps - 1) / ps = 0 := Nat.div_eq_of_lt (by omega)
    rw [hz]
    symm
    simp
  · have hps0 : 0 < ps := hps
    have hdm := Nat.div_add_mod (t + ps - 1) ps
    have hmlt : (t + ps - 1) % ps < ps := Nat.mod_lt _ hps0
    have hub : t ≤ ((t + ps - 1) / ps) * ps := by
      rw [Nat.mul_comm]
      omega
    have hn1 : 1 ≤ (t + ps - 1) / ps := by
      rw [Nat.one_le_div_iff hps0]
      omega
    have hlb : (((t + ps - 1) / ps) - 1) * ps < t := by
      rw [Nat.sub_mul, Nat.one_mul, Nat.mul_comm]
      omega
    have hpsq : (0 : ℚ) < (ps : ℚ) := by exact_mod_cast hps0
    symm
    rw [Nat.ceil_eq_iff (by omega : (t + ps - 1) / ps ≠ 0)]
    constructor
    · rw [lt_div_iff₀ hpsq]
      exact_mod_cast hlb
    · rw [div_le_iff₀ hpsq]
      exact_mod_cast hub

/-- `t` posts never exceed `ceil(t/ps)` pages of size `ps`. -/
theorem ceil_mul_ge (t ps : Nat) (hps : 1 ≤ ps) : t ≤ ((t + ps - 1) / ps) * ps := by
  have hdm := Nat.div_add_mod (t + ps - 1) ps
  have hmlt : (t + ps - 1) % ps < ps := Nat.mod_lt _ hps
  rw [Nat.mul_comm]
  omega

/-! ### Claim theorems -/

/-- C3: the validator returns the rejection reason of the first violated rule
in the fixed order title required → description required → url_keyword
required → url_keyword format → priority validity → tag length →
meta_description length → title length → url_keyword uniqueness, and returns
the fully populated post when no rule is violated. -/
theorem validator_stops_at_first_violated_rule (form : BlogForm) (store : List BlogPost) :
    validateBlogPost form store =
      match specFirstViolation form store with
      | some msg => Except.error msg
      | none => Except.ok (specPost form) :=
  validateBlogPost_eq form store

/-- C1: a submission that validates successfully is inserted by the create
handler (status 201) and then found by `getByUrlKeyword` under its slug, with
title, description, url_keyword, meta_description, focus_keyword, topic,
service, industry, tags and priority equal to the validated submission (tags
order-preserved, priority defaulted to `normal` when the field was omitted). -/
theorem create_then_get_roundtrip (form : BlogForm) (store : List BlogPost)
    (blog : BlogPost) (h : validateBlogPost form store = Except.ok blog) :
    (createBlogHandler form store).status = 201 ∧
    getByUrlKeyword (createBlogHandler form store).store blog.UrlKeyword = some blog ∧
    blog.Title = goTrim form.title ∧
    blog.Description = goTrim form.description ∧
    blog.UrlKeyword = goTrim form.url_keyword ∧
    blog.MetaDescription = goTrim form.meta_description ∧
    blog.FocusKeyword = goTrim form.focus_keyword ∧
    blog.Topic = goTrim form.topic ∧
    blog.Service = goTrim form.service ∧
    blog.Industry = goTrim form.industry ∧
    blog.Tags = ((splitTags form.tags).map goTrim).filter (fun t => !(t == "")) ∧
    blog.Priority = (if goTrim form.priority == "" then "normal" else goTrim form.priority) := by
  obtain ⟨hb, -, -, -, -, -, -, -, hnodup⟩ := validateBlogPost_ok_fields form store blog h
  subst hb
  have hcreate : createBlogHandler form store =
      ⟨201, "Blog post created successfully", store ++ [specPost form]⟩ := by
    unfold createBlogHandler
    rw [h]
  rw [hcreate]
  have hnone : store.find? (fun p => p.UrlKeyword == (specPost form).UrlKeyword) = none := by
    rw [List.find?_eq_none]
    intro p hp
    simpa [specPost] using hnodup p hp
  refine ⟨rfl, ?_, rfl, rfl, rfl, rfl, rfl, rfl, rfl, rfl, rfl, rfl⟩
  unfold getByUrlKeyword
  rw [find?_append_none _ _ _ hnone]
  simp [List.find?]

/-- Witness for C1: the sample submission is retrievable after creation, with
its fields as submitted and priority defaulted to normal. -/
theorem create_then_get_roundtrip_witness :
    getByUrlKeyword (createBlogHandler sampleForm []).store samplePost.UrlKeyword =
      some samplePost ∧ samplePost.Priority = "normal" := by
  have h : validateBlogPost sampleForm [] = Except.ok samplePost := rfl
  exact ⟨(create_then_get_roundtrip sampleForm [] samplePost h).2.1, rfl⟩

/-- C4: the validator's tags are the comma-split, trimmed, empty-dropped
flattening of the submitted tags fields in order; every stored tag is
non-empty, trimmed and at most 50 characters long; and a trimmed piece longer
than 50 characters makes validation fail. -/
theorem tags_split_trim_drop_empty (form : BlogForm) (store : List BlogPost) :
    (∀ blog, validateBlogPost form store = Except.ok blog →
      blog.Tags = ((splitTags form.tags).map goTrim).filter (fun t => !(t == "")) ∧
      ∀ t ∈ blog.Tags, t ≠ "" ∧ goTrim t = t ∧ t.length ≤ 50) ∧
    (firstBadTag form.tags ≠ none →
      ∀ blog, validateBlogPost form store ≠ Except.ok blog) := by
  constructor
  · intro blog h
    obtain ⟨hb, -, -, -, -, hbad, -, -, -⟩ := validateBlogPost_ok_fields form store blog h
    subst hb
    exact ⟨rfl, specPost_tags_facts form hbad⟩
  · intro hbad blog h
    obtain ⟨-, -, -, -, -, hnone, -, -, -⟩ := validateBlogPost_ok_fields form store blog h
    exact hbad hnone

/-- Witness for C4: the two fields `"a, b"` and `"c"` yield tags
`["a", "b", "c"]`. -/
theorem tags_split_trim_drop_empty_witness :
    samplePost.Tags = ["a", "b", "c"] ∧
    ((splitTags sampleForm.tags).map goTrim).filter (fun t => !(t == "")) =
      ["a", "b", "c"] := by
  have h : validateBlogPost sampleForm [] = Except.ok samplePost := rfl
  have hx := (tags_split_trim_drop_empty sampleForm []).1 samplePost h
  exact ⟨rfl, by rw [← hx.1]; rfl⟩

/-- C10: every string field of a validated post is the whitespace-trimmed
submitted value, re-trimming each stored field (title, description,
url_keyword, meta_description, focus_keyword, topic, service, industry,
priority, every tag) is the identity, and the length limits (title ≤ 100,
meta_description ≤ 160, tag ≤ 50) hold on the trimmed values. -/
theorem fields_trimmed_before_validation (form : BlogForm) (store : List BlogPost)
    (blog : BlogPost) (h : validateBlogPost form store = Except.ok blog) :
    blog.Title = goTrim form.title ∧ goTrim blog.Title = blog.Title ∧
    blog.Description = goTrim form.description ∧
    goTrim blog.Description = blog.Description ∧
    blog.UrlKeyword = goTrim form.url_keyword ∧
    goTrim blog.UrlKeyword = blog.UrlKeyword ∧
    blog.MetaDescription = goTrim form.meta_description ∧
    goTrim blog.MetaDescription = blog.MetaDescription ∧
    blog.FocusKeyword = goTrim form.focus_keyword ∧
    goTrim blog.FocusKeyword = blog.FocusKeyword ∧
    blog.Topic = goTrim form.topic ∧ goTrim blog.Topic = blog.Topic ∧
    blog.Service = goTrim form.service ∧ goTrim blog.Service = blog.Service ∧
    blog.Industry = goTrim form.industry ∧ goTrim blog.Industry = blog.Industry ∧
    goTrim blog.Priority = blog.Priority ∧
    (∀ t ∈ blog.Tags, goTrim t = t ∧ t ≠ "" ∧ t.length ≤ 50) ∧
    blog.Title.length ≤ 100 ∧ blog.MetaDescription.length ≤ 160 := by
  obtain ⟨hb, -, -, -, -, hbad, hmeta, htitle, -⟩ :=
    validateBlogPost_ok_fields form store blog h
  subst hb
  refine ⟨rfl, goTrim_idem _, rfl, goTrim_idem _, rfl, goTrim_idem _, rfl,
    goTrim_idem _, rfl, goTrim_idem _, rfl, goTrim_idem _, rfl, goTrim_idem _,
    rfl, goTrim_idem _, ?_, ?_, htitle, hmeta⟩
  · show goTrim (specPost form).Priority = (specPost form).Priority
    simp only [specPost]
    split
    · rfl
    · exact goTrim_idem _
  · intro t ht
    have hf := specPost_tags_facts form hbad t ht
    exact ⟨hf.2.1, hf.1, hf.2.2⟩

/-- Witness for C10: the padded submission is stored fully trimmed. -/
theorem fields_trimmed_before_validation_witness :
    paddedPost.Title = goTrim paddedForm.title ∧
    goTrim paddedPost.Title = paddedPost.Title ∧
    goTrim paddedPost.Priority = paddedPost.Priority := by
  have h : validateBlogPost paddedForm [] = Except.ok paddedPost := rfl
  have hx := fields_trimmed_before_validation paddedForm [] paddedPost h
  exact ⟨hx.1, hx.2.1, hx.2.2.2.2.2.2.2.2.2.2.2.2.2.2.2.2.1⟩

/-- C9 (amended): the url_keyword format check runs on the whitespace-trimmed
submitted value: when the trimmed url_keyword fails `^[a-zA-Z0-9-]+$` the
request never validates, and every validated post's stored url_keyword equals
the trimmed submission and matches the pattern. -/
theorem url_keyword_format_on_trimmed (form : BlogForm) (store : List BlogPost) :
    (matchesUrlKeywordRe (goTrim form.url_keyword) = false →
      ∀ blog, validateBlogPost form store ≠ Except.ok blog) ∧
    (∀ blog, validateBlogPost form store = Except.ok blog →
      blog.UrlKeyword = goTrim form.url_keyword ∧
      matchesUrlKeywordRe blog.UrlKeyword = true) := by
  constructor
  · intro hf blog h
    obtain ⟨-, -, -, hm, -⟩ := validateBlogPost_ok_fields form store blog h
    rw [hm] at hf
    cases hf
  · intro blog h
    obtain ⟨hb, -, -, hm, -⟩ := validateBlogPost_ok_fields form store blog h
    subst hb
    exact ⟨rfl, hm⟩

/-- C9 counterexample: the submitted url_keyword ` a` contains a space, a character
outside `[a-zA-Z0-9-]`, yet the request is accepted, because the check runs
on the trimmed value; the stored slug is the trimmed `a`. -/
theorem url_keyword_raw_space_accepted :
    validateBlogPost spacedForm [] = Except.ok spacedPost ∧
    spacedForm.url_keyword.data.all isUrlKeywordChar = false ∧
    spacedPost.UrlKeyword = "a" :=
  ⟨rfl, rfl, rfl⟩

/-- Witness for C9 at the sample submission. -/
theorem url_keyword_format_on_trimmed_witness :
    samplePost.UrlKeyword = goTrim sampleForm.url_keyword ∧
    matchesUrlKeywordRe samplePost.UrlKeyword = true :=
  (url_keyword_format_on_trimmed sampleForm []).2 samplePost rfl

/-- C2 (amended): a create request that passes every validation rule before
the uniqueness rule and whose trimmed url_keyword is already stored is
answered 400 with the uniqueness-violation message, and the table is left
unchanged. -/
theorem duplicate_url_keyword_rejected (form : BlogForm) (store : List BlogPost)
    (h1 : goTrim form.title ≠ "")
    (h2 : goTrim form.description ≠ "")
    (h3 : matchesUrlKeywordRe (goTrim form.url_keyword) = true)
    (h4 : goTrim form.priority = "" ∨ validPriority (goTrim form.priority) = true)
    (h5 : firstBadTag form.tags = none)
    (h6 : (goTrim form.meta_description).length ≤ 160)
    (h7 : (goTrim form.title).length ≤ 100)
    (hdup : ∃ p ∈ store, p.UrlKeyword = goTrim form.url_keyword) :
    createBlogHandler form store = ⟨400, "url_keyword already exists", store⟩ := by
  have hb1 : (goTrim form.title == "") = false := by simpa using h1
  have hb2 : (goTrim form.description == "") = false := by simpa using h2
  have hb3 : (goTrim form.url_keyword == "") = false := matches_ne_empty _ h3
  have hb4 : (!matchesUrlKeywordRe (goTrim form.url_keyword)) = false := by
    simp [h3]
  have hb5 : (goTrim form.priority != "" && !validPriority (goTrim form.priority)) = false := by
    rcases h4 with h4 | h4 <;> simp [h4]
  have hb6 : (firstBadTag form.tags).isSome = false := by simp [h5]
  have hb7 : decide ((goTrim form.meta_description).length > 160) = false := by
    simp
    omega
  have hb8 : decide ((goTrim form.title).length > 100) = false := by
    simp
    omega
  have hb9 : (store.any fun p => p.UrlKeyword == goTrim form.url_keyword) = true := by
    rw [List.any_eq_true]
    obtain ⟨p, hp, he⟩ := hdup
    exact ⟨p, hp, by simp [he]⟩
  have hval : validateBlogPost form store = Except.error "url_keyword already exists" := by
    rw [validateBlogPost_eq]
    have hfv : specFirstViolation form store = some "url_keyword already exists" := by
      unfold specFirstViolation specRuleViolations
      simp [firstViolation, hb1, hb2, hb3, hb4, hb5, hb6, hb7, hb8, hb9]
    rw [hfv]
  unfold createBlogHandler
  rw [hval]

/-- Witness for C2 at a concrete duplicate submission. -/
theorem duplicate_url_keyword_rejected_witness :
    createBlogHandler dupForm [storedPost] =
      ⟨400, "url_keyword already exists", [storedPost]⟩ :=
  duplicate_url_keyword_rejected dupForm [storedPost]
    (by decide) (by decide) (by decide) (Or.inl (by decide)) (by decide)
    (by decide) (by decide) ⟨storedPost, by simp, by decide⟩

/-- C2 counterexample: a duplicate url_keyword submitted together with an
empty title is rejected with the title message, not the uniqueness-violation
message (the status is still 400 and no row is inserted). -/
theorem duplicate_url_keyword_other_message :
    storedPost.UrlKeyword = dupFormNoTitle.url_keyword ∧
    createBlogHandler dupFormNoTitle [storedPost] =
      ⟨400, "title is required", [storedPost]⟩ ∧
    ("title is required" == "url_keyword already exists") = false :=
  ⟨rfl, rfl, rfl⟩

/-- In the int64 range, wrapping is the identity. -/
theorem wrap64_eq_self (x : Int) (h0 : 0 ≤ x) (h1 : x < twoPow63) : wrap64 x = x := by
  have ht : twoPow63 = 9223372036854775808 := rfl
  unfold wrap64
  rw [Int.emod_eq_of_lt (by omega) (by omega)]
  omega

theorem listBlogsHandler_Page (page pageSize : Int) (sortByPriority : Bool)
    (store : List BlogPost) :
    (listBlogsHandler page pageSize sortByPriority store).Page =
      (if page < 1 then 1 else page) := rfl

theorem listBlogsHandler_PageSize (page pageSize : Int) (sortByPriority : Bool)
    (store : List BlogPost) :
    (listBlogsHandler page pageSize sortByPriority store).PageSize =
      (if pageSize < 1 then 10 else pageSize) := rfl

theorem listBlogsHandler_TotalPosts (page pageSize : Int) (sortByPriority : Bool)
    (store : List BlogPost) :
    (listBlogsHandler page pageSize sortByPriority store).TotalPosts =
      (store.length : Int) := rfl

theorem listBlogsHandler_TotalPages (page pageSize : Int) (sortByPriority : Bool)
    (store : List BlogPost) :
    (listBlogsHandler page pageSize sortByPriority store).TotalPages =
      Int.tdiv
        (wrap64 ((store.length : Int) + (if pageSize < 1 then 10 else pageSize) - 1))
        (if pageSize < 1 then 10 else pageSize) := rfl

theorem listBlogsHandler_Posts (page pageSize : Int) (sortByPriority : Bool)
    (store : List BlogPost) :
    (listBlogsHandler page pageSize sortByPriority store).Posts =
      (((if sortByPriority then store.insertionSort priorityLe else store).drop
          (wrap64 (((if page < 1 then 1 else page) - 1) *
            (if pageSize < 1 then 10 else pageSize))).toNat).take
        (if pageSize < 1 then 10 else pageSize).toNat) := rfl

/-- C5 (amended): whenever the two int64 computations cannot overflow — the
floored offset product `(page-1)*pageSize` and the totalPages numerator
`totalPosts + pageSize - 1` both lie below 2^63 — the list handler floors
page to 1 when the parsed value is below 1, uses pageSize 10 when the parsed
value is below 1, computes totalPages as the ceiling of totalPosts /
pageSize, and a page beyond the last page yields an empty posts sequence
rather than an error. -/
theorem pagination_defaults_and_bounds (page pageSize : Int) (sortByPriority : Bool)
    (store : List BlogPost)
    (hoffb : ((if page < 1 then 1 else page) - 1) *
      (if pageSize < 1 then 10 else pageSize) < twoPow63)
    (htpb : (store.length : Int) + (if pageSize < 1 then 10 else pageSize) - 1 <
      twoPow63) :
    (page < 1 → (listBlogsHandler page pageSize sortByPriority store).Page = 1) ∧
    (pageSize < 1 → (listBlogsHandler page pageSize sortByPriority store).PageSize = 10) ∧
    ((listBlogsHandler page pageSize sortByPriority store).TotalPages =
      (⌈((listBlogsHandler page pageSize sortByPriority store).TotalPosts : ℚ) /
        ((listBlogsHandler page pageSize sortByPriority store).PageSize : ℚ)⌉₊ : Int)) ∧
    ((listBlogsHandler page pageSize sortByPriority store).TotalPages <
        (listBlogsHandler page pageSize sortByPriority store).Page →
      (listBlogsHandler page pageSize sortByPriority store).Posts = []) := by
  have hP1 : 1 ≤ (if page < 1 then 1 else page) := by
    split <;> omega
  have hPS1 : 1 ≤ (if pageSize < 1 then 10 else pageSize) := by
    split <;> omega
  have hpsn1 : 1 ≤ (if pageSize < 1 then 10 else pageSize).toNat := by omega
  have hPSn : ((if pageSize < 1 then 10 else pageSize).toNat : Int) =
      (if pageSize < 1 then 10 else pageSize) := Int.toNat_of_nonneg (by omega)
  have hnum : (store.length : Int) + (if pageSize < 1 then 10 else pageSize) - 1 =
      ((store.length + (if pageSize < 1 then 10 else pageSize).toNat - 1 : Nat) : Int) := by
    omega
  have htp : (listBlogsHandler page pageSize sortByPriority store).TotalPages =
      ((store.length + (if pageSize < 1 then 10 else pageSize).toNat - 1) /
        (if pageSize < 1 then 10 else pageSize).toNat : Nat) := by
    rw [listBlogsHandler_TotalPages, wrap64_eq_self _ (by omega) htpb, hnum, ← hPSn,
      ← Int.ofNat_tdiv]
    simp
  refine ⟨?_, ?_, ?_, ?_⟩
  · intro h
    rw [listBlogsHandler_Page, if_pos h]
  · intro h
    rw [listBlogsHandler_PageSize, if_pos h]
  · rw [htp, listBlogsHandler_TotalPosts, listBlogsHandler_PageSize,
      ceil_div_eq store.length _ hpsn1, ← hPSn]
    push_cast
    rfl
  · intro h
    rw [htp, listBlogsHandler_Page] at h
    rw [listBlogsHandler_Posts]
    have hordlen :
        (if sortByPriority then store.insertionSort priorityLe else store).length =
          store.length := by
      split
      · exact (List.perm_insertionSort priorityLe store).length_eq
      · rfl
    have hoff0 : 0 ≤ ((if page < 1 then 1 else page) - 1) *
        (if pageSize < 1 then 10 else pageSize) :=
      mul_nonneg (by omega) (by omega)
    rw [wrap64_eq_self _ hoff0 hoffb]
    have hceil := ceil_mul_ge store.length (if pageSize < 1 then 10 else pageSize).toNat hpsn1
    have hc2 : (store.length : Int) ≤
        (((store.length + (if pageSize < 1 then 10 else pageSize).toNat - 1) /
          (if pageSize < 1 then 10 else pageSize).toNat : Nat) : Int) *
          (if pageSize < 1 then 10 else pageSize) := by
      calc (store.length : Int) ≤
          ((((store.length + (if pageSize < 1 then 10 else pageSize).toNat - 1) /
              (if pageSize < 1 then 10 else pageSize).toNat) *
            (if pageSize < 1 then 10 else pageSize).toNat : Nat) : Int) := by
            exact_mod_cast hceil
        _ = (((store.length + (if pageSize < 1 then 10 else pageSize).toNat - 1) /
              (if pageSize < 1 then 10 else pageSize).toNat : Nat) : Int) *
            (if pageSize < 1 then 10 else pageSize) := by
            push_cast
            rw [hPSn]
    have hP : (((store.length + (if pageSize < 1 then 10 else pageSize).toNat - 1) /
        (if pageSize < 1 then 10 else pageSize).toNat : Nat) : Int) ≤
        (if page < 1 then 1 else page) - 1 := by omega
    have hmul : (store.length : Int) ≤
        ((if page < 1 then 1 else page) - 1) * (if pageSize < 1 then 10 else pageSize) :=
      le_trans hc2 (mul_le_mul_of_nonneg_right hP (by omega))
    have hlen : (if sortByPriority then store.insertionSort priorityLe else store).length ≤
        (((if page < 1 then 1 else page) - 1) *
          (if pageSize < 1 then 10 else pageSize)).toNat := by
      rw [hordlen]
      omega
    rw [List.drop_eq_nil_of_le hlen]
    exact List.take_nil

/-- Witness for C5 at page 0, pageSize 0, empty store (no overflow). -/
theorem pagination_defaults_and_bounds_witness :
    (listBlogsHandler 0 0 false []).Page = 1 ∧
    (listBlogsHandler 0 0 false []).PageSize = 10 ∧
    (listBlogsHandler 0 0 false []).Posts = [] := by
  have hx := pagination_defaults_and_bounds 0 0 false [] (by decide) (by decide)
  exact ⟨hx.1 (by decide), hx.2.1 (by decide), hx.2.2.2 (by decide)⟩

/-- C5 counterexample: with the `Atoi`-reachable page value 2^63-1, Go's int64
offset `(page-1)*pageSize` wraps to -20 — a negative OFFSET that SQLite reads
as 0 — so this far-beyond-range request returns the first page instead of an
empty list; and with pageSize 2^63-1 and two stored posts the totalPages
numerator wraps negative and totalPages is -1, not the ceiling 1. -/
theorem pagination_overflow_wraps :
    (listBlogsHandler 9223372036854775807 10 false [storedPost]).TotalPages = 1 ∧
    (listBlogsHandler 9223372036854775807 10 false [storedPost]).Page =
      9223372036854775807 ∧
    (listBlogsHandler 9223372036854775807 10 false [storedPost]).Posts = [storedPost] ∧
    wrap64 (((9223372036854775807 : Int) - 1) * 10) = -20 ∧
    (listBlogsHandler 1 9223372036854775807 false [storedPost, storedPost]).TotalPages =
      -1 ∧
    ⌈((2 : ℚ)) / ((9223372036854775807 : ℚ))⌉₊ = 1 := by
  refine ⟨rfl, rfl, rfl, rfl, rfl, ?_⟩
  rw [Nat.ceil_eq_iff (by norm_num : (1 : ℕ) ≠ 0)]
  constructor
  · norm_num
  · push_cast
    rw [div_le_one (by norm_num : (0 : ℚ) < 9223372036854775807)]
    norm_num

/-- C6: with `sort=priority`, the returned sequence of posts is non-decreasing
under the rank mapping maximum to 1, high to 2, normal to 3 and any other
priority to 4. -/
theorem priority_sort_nondecreasing (page pageSize : Int) (store : List BlogPost) :
    List.Pairwise priorityLe (listBlogsHandler page pageSize true store).Posts := by
  rw [listBlogsHandler_Posts]
  have hs : List.Pairwise priorityLe (store.insertionSort priorityLe) :=
    List.sorted_insertionSort priorityLe store
  simp only [if_true]
  exact List.Pairwise.sublist ((List.take_sublist _ _).trans (List.drop_sublist _ _)) hs

/-- C7 (code evaluated at the failing input): the declared content type `png`
is none of image/jpeg, image/png, image/gif, yet the upload passes the type
check, because the Go code tests `strings.Contains(allowedImageTypes,
contentType)` — a substring test; a file declared `text/plain` is still always
rejected whatever its size and name. -/
theorem content_type_substring_accepted :
    validateAndSaveFile 0 "png" "a.png" = Except.ok "uploads/a.png" ∧
    (["image/jpeg", "image/png", "image/gif"].contains "png") = false ∧
    ∀ size filename, uploadAccepted (validateAndSaveFile size "text/plain" filename) = false := by
  refine ⟨rfl, rfl, ?_⟩
  intro size filename
  unfold validateAndSaveFile
  split
  · rfl
  · rw [if_pos (by decide : (!goContains allowedImageTypes "text/plain") = true)]
    rfl

/-- C8 (code evaluated at the failing input): all checks pass for a file named
`../../x` and the stored path is `../x`, outside the uploads directory —
`filepath.Clean` before `filepath.Join` does not neutralise a filename's
leading `..` segments. -/
theorem filename_traversal_escapes_uploads :
    validateAndSaveFile 0 "image/png" "../../x" = Except.ok "../x" ∧
    goJoin "uploads" (goClean "../../x") = "../x" ∧
    insideUploads "../x" = false :=
  ⟨rfl, rfl, rfl⟩

end Blogo
